import Mathlib

/-
Shallow embedding of the coinbase-samples/core-go library (package core)
and proofs about its HTTP request/response pipeline, query helper, and
WebSocket listen loop.

The repository contains alternative variants of the same package:
  * http.go      — apiRequest/makeCall/call, PATCH is body-carrying
  * core.go      — ApiRequest/MakeCall/Call (credentials guard), PATCH not body-carrying
  * part_003     — apiRequest/makeCall/call (credentials guard), PATCH not body-carrying
  * ws.go        — ListenForWebSocketTextMessages (text frames)
  * websocket.go — ListenForWebSocketMessages (binary frames)

External collaborators (the Go standard library's url.Parse,
http.NewRequestWithContext, the HTTP transport, io body reads, and
encoding/json) are modelled as oracle inputs in an environment record:
the embedding receives the OUTCOME each external call would produce and
reproduces the library's control flow on those outcomes exactly as the
source does.  Byte slices are modelled as String (Go converts the body
with string(body)); Go ints are modelled as Int.
-/

namespace CoreGo

/-! ## Query helper (http.go:287-296) -/

/-- Go constant EmptyQueryParams = "" (http.go:35). -/
def EmptyQueryParams : String := ""

/-- Go constant QueryParamFirstSep = "?" (http.go:37). -/
def QueryParamFirstSep : String := "?"

/-- Go constant QueryParamAdditionalSep = "&" (http.go:39). -/
def QueryParamAdditionalSep : String := "&"

/-- Embedding of HttpQueryParamSep (http.go:291-296): "&" when a parameter
was already appended, otherwise "?". -/
def HttpQueryParamSep (appended : Bool) : String :=
  if appended then QueryParamAdditionalSep else QueryParamFirstSep

/-- Embedding of AppendHttpQueryParam (http.go:287-289).
fmt.Sprintf with pattern "%s%s%s=%s" is string concatenation, and
strings.Contains(queryParams, QueryParamFirstSep) with the one-character
separator "?" holds exactly when the character '?' appears among the
string's characters. -/
def AppendHttpQueryParam (queryParams key value : String) : String :=
  queryParams ++ HttpQueryParamSep (queryParams.toList.contains '?') ++ key ++ "=" ++ value

/-! ## WebSocket message constants and listen loops (ws_model.go:30-41,
ws.go:33-47, websocket.go:249-263).  gorilla/websocket's TextMessage,
BinaryMessage and CloseMessage constants are 1, 2 and 8; ws_model.go
re-exports the same values. -/

def WebSocketTextMessage : Int := 1

def WebSocketBinaryMessage : Int := 2

def WebSocketCloseMessage : Int := 8

/-- Outcome of one c.ReadMessage() call on the connection: either a frame
(message type and payload) or a read error. -/
inductive WsReadResult where
  | frame (messageType : Int) (message : String)
  | readErr (err : String)
deriving DecidableEq, Repr

/-- Embedding of the listen loop shared by ws.go:33-47 (dataType = 1, text)
and websocket.go:249-263 (dataType = 2, binary).  The connection is
modelled as the finite list of outcomes its successive ReadMessage calls
return.  Result: the payloads passed to the handler, in order, paired with
the loop's exit: some (some e) = returned error e, some none = returned
nil after a close frame, none = the trace ended without the loop
returning (the real loop would still be blocked in ReadMessage). -/
def listenLoop (dataType : Int) : List WsReadResult → List String × Option (Option String)
  | [] => ([], none)
  | WsReadResult.readErr e :: _ => ([], some (some e))
  | WsReadResult.frame t m :: rest =>
      if t == dataType then
        let r := listenLoop dataType rest
        (m :: r.1, r.2)
      else if t == WebSocketCloseMessage then
        ([], some none)
      else
        listenLoop dataType rest

/-- Embedding of ListenForWebSocketTextMessages (ws.go:33-47): dispatches
text frames to the handler, returns nil on a close frame, returns read
errors. -/
def ListenForWebSocketTextMessages (reads : List WsReadResult) :
    List String × Option (Option String) :=
  listenLoop WebSocketTextMessage reads

/-- Embedding of ListenForWebSocketMessages (websocket.go:249-263):
identical loop for binary frames. -/
def ListenForWebSocketMessages (reads : List WsReadResult) :
    List String × Option (Option String) :=
  listenLoop WebSocketBinaryMessage reads

/-! ## HTTP data model (core.go:17-52, http.go:44-66, part_003:33-68) -/

/-- Embedding of Credentials (core.go:23-28 / part_003:39-44). -/
structure Credentials where
  AccessKey : String
  Passphrase : String
  SigningKey : String
  PortfolioId : String
deriving DecidableEq, Repr

/-- Embedding of Client (core.go:17-21 / part_003:33-37): base URL,
optional credentials bundle (a nil-able Go pointer, hence Option), and a
transport reference.  The transport itself is external; its behaviour is
supplied through the NetEnv oracle, so no field models it here.  The
http.go variant's Client is an interface exposing HttpBaseUrl(); only the
base URL is consumed by makeCall in every variant. -/
structure Client where
  HttpBaseUrl : String
  Credentials : Option Credentials
deriving DecidableEq, Repr

/-- Embedding of apiRequest (http.go:44-51) / ApiRequest (core.go:30-37):
the request descriptor built per call. -/
structure ApiRequest where
  Path : String
  Query : String
  HttpMethod : String
  Body : String
  ExpectedHttpStatusCodes : List Int
  Client : Client
deriving DecidableEq, Repr

/-- Embedding of ApiError (http.go:61-66 / core.go:47-52): message,
expected status codes, received status code, resolved URL. -/
structure ApiError where
  Message : String
  CodeExpected : List Int
  CodeReceived : Int
  ParsedUrl : String
deriving DecidableEq, Repr

/-- Embedding of ApiResponse (http.go:53-59 / core.go:39-45).  The Request
back-pointer is omitted: it is the argument itself and never read by the
code under proof. -/
structure ApiResponse where
  Body : String
  HttpStatusCode : Int
  HttpStatusMsg : String
  Error : Option ApiError
deriving DecidableEq, Repr

/-- Result of json.Unmarshal(body, &apiErr) when it succeeds: the values
the decoder left in the ApiError value.  message is none when the payload
had no `message` field (Go then leaves the zero value "").  The other
three fields model whatever the decoder may have written there from the
payload; the source overwrites all three afterwards. -/
structure ParsedApiErr where
  message : Option String
  codeExpected : List Int
  codeReceived : Int
  parsedUrl : String
deriving DecidableEq, Repr

/-- Outcome of one transport exchange (Client.HttpClient.Do succeeded):
status code, status line, and the outcome of reading the response body
(ioutil.ReadAll). -/
structure HttpWireResponse where
  statusCode : Int
  status : String
  bodyRead : Except String String
deriving Repr

/-- Oracle for the external calls makeCall performs, in program order:
url.Parse on the concatenated URL (some e = failure with error text e,
as printed by %v), http.NewRequestWithContext (some e = failure),
the transport call Client.HttpClient.Do, and — on the unexpected-status
path — json.Unmarshal of the response body into an ApiError (none =
jsonErr was non-nil). -/
structure NetEnv where
  urlParseErr : Option String
  newRequestErr : Option String
  transport : Except String HttpWireResponse
  errBodyParse : Option ParsedApiErr
deriving Repr

/-- Trace of externally visible activity during makeCall, recorded by the
embedding so that claims of the form "no network call is attempted" are
statable.  wireBody is the byte payload handed to bytes.NewReader for the
wire-level request (none = http.NewRequestWithContext never reached). -/
structure CallTrace where
  wireBody : Option String
  headersFuncInvoked : Bool
  transportInvoked : Bool
  bodyReadAttempted : Bool
deriving DecidableEq, Repr

/-- Trace value for the paths that return before constructing the wire
request. -/
def CallTrace.none : CallTrace :=
  { wireBody := Option.none, headersFuncInvoked := false,
    transportInvoked := false, bodyReadAttempted := false }

/-- Embedding of the status-code membership loop (http.go:263-269 /
core.go:222-228): linear scan with early break. -/
def isExpectedStatusCode (statusCode : Int) : List Int → Bool
  | [] => false
  | code :: rest =>
      if statusCode == code then true else isExpectedStatusCode statusCode rest

/-- Body-carrying method test of http.go:225: POST, PUT and PATCH. -/
def isBodyCarryingHttp (m : String) : Bool :=
  m == "POST" || m == "PUT" || m == "PATCH"

/-- Body-carrying method test of core.go:184 / part_003:200: POST and PUT
only. -/
def isBodyCarryingCore (m : String) : Bool :=
  m == "POST" || m == "PUT"

/-- Embedding of makeCall (http.go:206-285), MakeCall (core.go:165-244)
and makeCall (part_003:181-260), which are line-for-line identical except
for the body-carrying method test (PATCH in http.go only), abstracted as
bodyCarrying.  Every branch mirrors the source: URL parse failure,
wire-request construction failure, transport failure and body-read
failure each return early with CodeReceived 0; otherwise the response is
classified against the expected status codes, and on mismatch the body is
decoded as an ApiError with raw-text fallback and the three contextual
fields are overwritten. -/
def makeCallGen (bodyCarrying : String → Bool) (env : NetEnv) (request : ApiRequest) :
    ApiResponse × CallTrace :=
  let callUrl := request.Client.HttpBaseUrl ++ request.Path ++ request.Query
  match env.urlParseErr with
  | some err =>
      ({ Body := "", HttpStatusCode := 0, HttpStatusMsg := "",
         Error := some { Message := "invalid URL: " ++ callUrl ++ " - " ++ err,
                         CodeExpected := [], CodeReceived := 0, ParsedUrl := callUrl } },
       CallTrace.none)
  | none =>
      let requestBody := if bodyCarrying request.HttpMethod then request.Body else ""
      match env.newRequestErr with
      | some err =>
          ({ Body := "", HttpStatusCode := 0, HttpStatusMsg := "",
             Error := some { Message := err, CodeExpected := [],
                             CodeReceived := 0, ParsedUrl := "" } },
           { wireBody := some requestBody, headersFuncInvoked := false,
             transportInvoked := false, bodyReadAttempted := false })
      | none =>
          match env.transport with
          | Except.error err =>
              ({ Body := "", HttpStatusCode := 0, HttpStatusMsg := "",
                 Error := some { Message := err, CodeExpected := [],
                                 CodeReceived := 0, ParsedUrl := "" } },
               { wireBody := some requestBody, headersFuncInvoked := true,
                 transportInvoked := true, bodyReadAttempted := false })
          | Except.ok res =>
              match res.bodyRead with
              | Except.error err =>
                  ({ Body := "", HttpStatusCode := 0, HttpStatusMsg := "",
                     Error := some { Message := err, CodeExpected := [],
                                     CodeReceived := 0, ParsedUrl := "" } },
                   { wireBody := some requestBody, headersFuncInvoked := true,
                     transportInvoked := true, bodyReadAttempted := true })
              | Except.ok body =>
                  let err :=
                    if isExpectedStatusCode res.statusCode request.ExpectedHttpStatusCodes then
                      Option.none
                    else
                      let apiErr0 : ApiError :=
                        match env.errBodyParse with
                        | none =>
                            { Message := body, CodeExpected := [],
                              CodeReceived := 0, ParsedUrl := "" }
                        | some p =>
                            { Message := p.message.getD "", CodeExpected := p.codeExpected,
                              CodeReceived := p.codeReceived, ParsedUrl := p.parsedUrl }
                      some { apiErr0 with CodeExpected := request.ExpectedHttpStatusCodes,
                                          CodeReceived := res.statusCode,
                                          ParsedUrl := callUrl }
                  ({ Body := body, HttpStatusCode := res.statusCode,
                     HttpStatusMsg := res.status, Error := err },
                   { wireBody := some requestBody, headersFuncInvoked := true,
                     transportInvoked := true, bodyReadAttempted := true })

/-- Embedding of makeCall (http.go:206-285): PATCH is body-carrying. -/
def makeCall (env : NetEnv) (request : ApiRequest) : ApiResponse × CallTrace :=
  makeCallGen isBodyCarryingHttp env request

/-- Embedding of MakeCall (core.go:165-244) and makeCall (part_003:181-260):
PATCH is not body-carrying. -/
def MakeCall (env : NetEnv) (request : ApiRequest) : ApiResponse × CallTrace :=
  makeCallGen isBodyCarryingCore env request

/-! ## Call entry points (core.go:120-163, http.go:165-204, part_003:136-179) -/

/-- Go error values returned by the Call entry points: either a plain
errors.New / json error (its text) or the library's *ApiError. -/
inductive GoError where
  | simple (msg : String)
  | api (e : ApiError)
deriving DecidableEq, Repr

/-- Oracle for the external calls the Call entry points perform around
MakeCall: json.Marshal of the caller's request value and json.Unmarshal of
the response body into the caller's response value (some e = failure). -/
structure CallEnv where
  marshal : Except String String
  net : NetEnv
  unmarshalResp : Option String
deriving Repr

/-- Trace of a Call execution: whether json.Marshal was reached, whether
MakeCall was invoked, and the inner network trace. -/
structure FullTrace where
  marshalAttempted : Bool
  makeCallInvoked : Bool
  net : CallTrace
deriving DecidableEq, Repr

/-- Trace value for a return before serialization. -/
def FullTrace.none : FullTrace :=
  { marshalAttempted := false, makeCallInvoked := false, net := CallTrace.none }

/-- Embedding of Call (core.go:120-163), which equals call (part_003:136-179):
guard on nil credentials, marshal the request, run MakeCall, surface its
error, otherwise unmarshal the body into the caller's response value. -/
def Call (env : CallEnv) (client : Client) (path query httpMethod : String)
    (expectedHttpStatusCodes : List Int) : Option GoError × FullTrace :=
  match client.Credentials with
  | none => (some (GoError.simple "credentials not set"), FullTrace.none)
  | some _ =>
      match env.marshal with
      | Except.error e =>
          (some (GoError.simple e),
           { marshalAttempted := true, makeCallInvoked := false, net := CallTrace.none })
      | Except.ok body =>
          let r := MakeCall env.net
            { Path := path, Query := query, HttpMethod := httpMethod, Body := body,
              ExpectedHttpStatusCodes := expectedHttpStatusCodes, Client := client }
          let t : FullTrace :=
            { marshalAttempted := true, makeCallInvoked := true, net := r.2 }
          match r.1.Error with
          | some e => (some (GoError.api e), t)
          | none =>
              match env.unmarshalResp with
              | some e => (some (GoError.simple e), t)
              | none => (none, t)

/-- Embedding of call (http.go:165-204): the same pipeline but with no
credentials guard — it marshals the request immediately — and the http.go
makeCall (PATCH body-carrying). -/
def call (env : CallEnv) (client : Client) (path query httpMethod : String)
    (expectedHttpStatusCodes : List Int) : Option GoError × FullTrace :=
  match env.marshal with
  | Except.error e =>
      (some (GoError.simple e),
       { marshalAttempted := true, makeCallInvoked := false, net := CallTrace.none })
  | Except.ok body =>
      let r := makeCall env.net
        { Path := path, Query := query, HttpMethod := httpMethod, Body := body,
          ExpectedHttpStatusCodes := expectedHttpStatusCodes, Client := client }
      let t : FullTrace :=
        { marshalAttempted := true, makeCallInvoked := true, net := r.2 }
      match r.1.Error with
      | some e => (some (GoError.api e), t)
      | none =>
          match env.unmarshalResp with
          | some e => (some (GoError.simple e), t)
          | none => (none, t)

/-! ## Helper lemmas -/

/-- The status-scan loop decides list membership. -/
lemma isExpectedStatusCode_iff_mem (s : Int) (l : List Int) :
    isExpectedStatusCode s l = true ↔ s ∈ l := by
  induction l with
  | nil => simp [isExpectedStatusCode]
  | cons c rest ih =>
      by_cases h : s = c
      · subst h; simp [isExpectedStatusCode]
      · simp [isExpectedStatusCode, h, ih]

/-- The status scan is invariant under permutation of the expected set. -/
lemma isExpectedStatusCode_perm (s : Int) {l₁ l₂ : List Int} (h : l₁.Perm l₂) :
    isExpectedStatusCode s l₁ = isExpectedStatusCode s l₂ := by
  rw [Bool.eq_iff_iff, isExpectedStatusCode_iff_mem, isExpectedStatusCode_iff_mem]
  exact h.mem_iff

/-- A run of frames of the listened data type is delivered to the handler
in order and the loop continues with the rest of the trace. -/
lemma listenLoop_data_prefix (d : Int) (ms : List String) (tail : List WsReadResult) :
    listenLoop d (ms.map (WsReadResult.frame d) ++ tail)
      = (ms ++ (listenLoop d tail).1, (listenLoop d tail).2) := by
  induction ms with
  | nil => simp
  | cons m ms ih => simp [listenLoop, ih]

/-! ## Claim theorems -/

/-- Claim C7: AppendHttpQueryParam Q k v is Q, a separator, then "k=v"; the
separator is "?" when Q does not contain "?" (in particular when Q is the
empty string) and "&" otherwise.  The first conjunct exhibits the result
shape for every input — the function is pure and concatenates k and v
verbatim, with no escaping. -/
theorem append_http_query_param_spec (Q k v : String) :
    AppendHttpQueryParam Q k v
        = Q ++ HttpQueryParamSep (Q.toList.contains '?') ++ k ++ "=" ++ v
    ∧ AppendHttpQueryParam "" k v = "?" ++ k ++ "=" ++ v
    ∧ (Q.toList.contains '?' = false →
        AppendHttpQueryParam Q k v = Q ++ "?" ++ k ++ "=" ++ v)
    ∧ (Q.toList.contains '?' = true →
        AppendHttpQueryParam Q k v = Q ++ "&" ++ k ++ "=" ++ v) := by
  refine ⟨rfl, ?_, ?_, ?_⟩
  · have h : (("" : String).toList.contains '?') = false := by decide
    simp [AppendHttpQueryParam, HttpQueryParamSep, QueryParamFirstSep, h]
  · intro h
    have h' : ¬ ('?' ∈ Q.data) := by simpa using h
    simp [AppendHttpQueryParam, HttpQueryParamSep, QueryParamFirstSep, h']
  · intro h
    have h' : '?' ∈ Q.data := by simpa using h
    simp [AppendHttpQueryParam, HttpQueryParamSep, QueryParamAdditionalSep, h']

/-- Witness for C7 at concrete inputs: appending to a query without "?"
uses "?", appending to one with "?" uses "&". -/
theorem append_http_query_param_spec_witness :
    ("abc".toList.contains '?' = false
      ∧ AppendHttpQueryParam "abc" "k" "v" = "abc" ++ "?" ++ "k" ++ "=" ++ "v")
    ∧ ("?x=1".toList.contains '?' = true
      ∧ AppendHttpQueryParam "?x=1" "k" "v" = "?x=1" ++ "&" ++ "k" ++ "=" ++ "v") :=
  ⟨⟨by decide, (append_http_query_param_spec "abc" "k" "v").2.2.1 (by decide)⟩,
   ⟨by decide, (append_http_query_param_spec "?x=1" "k" "v").2.2.2 (by decide)⟩⟩

/-- Claim C8: for both listen loops, a close frame before any data frame
ends the loop with no error and zero handler invocations; N data frames of
the listened type followed by a close frame produce exactly the N payloads
in arrival order and then a nil return; a failing read ends the loop with
that error immediately, with only the earlier data frames handled. -/
theorem listen_loop_close_and_data (ms : List String) (c e : String)
    (rest : List WsReadResult) :
    (ListenForWebSocketTextMessages (WsReadResult.frame WebSocketCloseMessage c :: rest)
        = ([], some none))
    ∧ (ListenForWebSocketTextMessages
          (ms.map (WsReadResult.frame WebSocketTextMessage)
            ++ [WsReadResult.frame WebSocketCloseMessage c])
        = (ms, some none))
    ∧ (ListenForWebSocketTextMessages
          (ms.map (WsReadResult.frame WebSocketTextMessage)
            ++ (WsReadResult.readErr e :: rest))
        = (ms, some (some e)))
    ∧ (ListenForWebSocketMessages (WsReadResult.frame WebSocketCloseMessage c :: rest)
        = ([], some none))
    ∧ (ListenForWebSocketMessages
          (ms.map (WsReadResult.frame WebSocketBinaryMessage)
            ++ [WsReadResult.frame WebSocketCloseMessage c])
        = (ms, some none))
    ∧ (ListenForWebSocketMessages
          (ms.map (WsReadResult.frame WebSocketBinaryMessage)
            ++ (WsReadResult.readErr e :: rest))
        = (ms, some (some e))) := by
  refine ⟨?_, ?_, ?_, ?_, ?_, ?_⟩ <;>
    simp [ListenForWebSocketTextMessages, ListenForWebSocketMessages,
      listenLoop_data_prefix, listenLoop,
      WebSocketTextMessage, WebSocketBinaryMessage, WebSocketCloseMessage]

/-- Claim C10: a frame whose type is neither the listened data type nor
close is silently discarded by both listen loops: the handler is not
invoked for it, no error is returned, and the loop's behaviour equals its
behaviour on the remaining reads. -/
theorem listen_loop_discards_other_frames (t : Int) (m : String)
    (rest : List WsReadResult) :
    (t ≠ WebSocketTextMessage → t ≠ WebSocketCloseMessage →
        ListenForWebSocketTextMessages (WsReadResult.frame t m :: rest)
          = ListenForWebSocketTextMessages rest)
    ∧ (t ≠ WebSocketBinaryMessage → t ≠ WebSocketCloseMessage →
        ListenForWebSocketMessages (WsReadResult.frame t m :: rest)
          = ListenForWebSocketMessages rest) := by
  constructor
  · intro h1 h8
    simp [ListenForWebSocketTextMessages, listenLoop, h1, h8]
  · intro h2 h8
    simp [ListenForWebSocketMessages, listenLoop, h2, h8]

/-- Witness for C10: a binary frame is discarded by the text listener and a
text frame is discarded by the binary listener. -/
theorem listen_loop_discards_other_frames_witness :
    (ListenForWebSocketTextMessages
        [WsReadResult.frame 2 "b", WsReadResult.frame 8 ""]
      = ListenForWebSocketTextMessages [WsReadResult.frame 8 ""])
    ∧ (ListenForWebSocketMessages
        [WsReadResult.frame 1 "t", WsReadResult.frame 8 ""]
      = ListenForWebSocketMessages [WsReadResult.frame 8 ""]) :=
  ⟨(listen_loop_discards_other_frames 2 "b" [WsReadResult.frame 8 ""]).1
      (by decide) (by decide),
   (listen_loop_discards_other_frames 1 "t" [WsReadResult.frame 8 ""]).2
      (by decide) (by decide)⟩

/-- Computation of makeCallGen on the path where the URL parses, the wire
request constructs, the transport answers and the body reads: the response
is classified against the expected status codes exactly as in
http.go:263-282 / core.go:222-241. -/
lemma makeCallGen_reach (bc : String → Bool) (env : NetEnv) (request : ApiRequest)
    (res : HttpWireResponse) (body : String)
    (h1 : env.urlParseErr = none) (h2 : env.newRequestErr = none)
    (h3 : env.transport = Except.ok res) (h4 : res.bodyRead = Except.ok body) :
    makeCallGen bc env request =
      ({ Body := body, HttpStatusCode := res.statusCode, HttpStatusMsg := res.status,
         Error :=
           if isExpectedStatusCode res.statusCode request.ExpectedHttpStatusCodes then
             none
           else
             some { Message := (match env.errBodyParse with
                      | none => body
                      | some p => p.message.getD "")
                  , CodeExpected := request.ExpectedHttpStatusCodes
                  , CodeReceived := res.statusCode
                  , ParsedUrl := request.Client.HttpBaseUrl ++ request.Path ++ request.Query } },
       { wireBody := some (if bc request.HttpMethod then request.Body else ""),
         headersFuncInvoked := true, transportInvoked := true,
         bodyReadAttempted := true }) := by
  obtain ⟨u, n, tr, pb⟩ := env
  obtain ⟨sc, st, br⟩ := res
  dsimp only at h1 h2 h3 h4 ⊢
  subst h1; subst h2; subst h3; subst h4
  cases pb <;> rfl

/-- On the classified path, the response error is absent exactly when the
received status code is a member of the expected set. -/
lemma makeCallGen_error_none_iff (bc : String → Bool) (env : NetEnv)
    (request : ApiRequest) (res : HttpWireResponse) (body : String)
    (h1 : env.urlParseErr = none) (h2 : env.newRequestErr = none)
    (h3 : env.transport = Except.ok res) (h4 : res.bodyRead = Except.ok body) :
    (makeCallGen bc env request).1.Error = none
      ↔ res.statusCode ∈ request.ExpectedHttpStatusCodes := by
  rw [makeCallGen_reach bc env request res body h1 h2 h3 h4]
  by_cases hE : isExpectedStatusCode res.statusCode request.ExpectedHttpStatusCodes
  · simp [hE, (isExpectedStatusCode_iff_mem _ _).mp hE]
  · simp only [hE, if_false]
    constructor
    · intro h; cases h
    · intro hmem
      exact absurd ((isExpectedStatusCode_iff_mem _ _).mpr hmem) hE

/-! ## Concrete sample values used by witness theorems -/

/-- Sample credential bundle. -/
def sampleCreds : Credentials :=
  { AccessKey := "ak", Passphrase := "pp", SigningKey := "sk", PortfolioId := "pf" }

/-- Sample client configuration. -/
def sampleClient : Client :=
  { HttpBaseUrl := "https://api.example.com", Credentials := some sampleCreds }

/-- Sample request descriptor: a GET whose descriptor nevertheless carries
serialized body bytes, expecting 200 or 201. -/
def sampleRequest : ApiRequest :=
  { Path := "/v1/orders", Query := "?limit=1", HttpMethod := "GET",
    Body := "reqbody", ExpectedHttpStatusCodes := [200, 201], Client := sampleClient }

/-- Sample wire response: a 404 whose body "oops" is not JSON, so
json.Unmarshal fails on it. -/
def sampleWire : HttpWireResponse :=
  { statusCode := 404, status := "404 Not Found", bodyRead := Except.ok "oops" }

/-- Sample environment in which every external call succeeds and the
error-body parse fails (non-JSON body). -/
def sampleEnv : NetEnv :=
  { urlParseErr := none, newRequestErr := none,
    transport := Except.ok sampleWire, errBodyParse := none }

/-- Sample wire response carrying the JSON body "\x7b\x7d" (an empty
object), which json.Unmarshal decodes successfully into an ApiError with
no message field. -/
def sampleWireJson : HttpWireResponse :=
  { statusCode := 500, status := "500 Internal Server Error",
    bodyRead := Except.ok "\x7b\x7d" }

/-- Decoder outcome for the empty-object body: parse succeeded, no
message field, nothing recovered for the contextual fields. -/
def sampleParsedNoMsg : ParsedApiErr :=
  { message := none, codeExpected := [], codeReceived := 0, parsedUrl := "" }

/-- Sample environment whose response body parses as an ApiError payload
without a message field. -/
def sampleEnvParsedNoMsg : NetEnv :=
  { urlParseErr := none, newRequestErr := none,
    transport := Except.ok sampleWireJson, errBodyParse := some sampleParsedNoMsg }

/-- Claim C1: for every received status code and expected set, the status
check inside makeCall/MakeCall (either body-carrying variant) reports
success exactly when the received code is an integer member of the
expected set; the verdict is invariant under permutation of the expected
set; and on success the envelope's Error is none and its Body is the raw
received body, left for the caller to deserialize. -/
theorem classifier_success_iff_member (bc : String → Bool) (env : NetEnv)
    (request : ApiRequest) (res : HttpWireResponse) (body : String)
    (h1 : env.urlParseErr = none) (h2 : env.newRequestErr = none)
    (h3 : env.transport = Except.ok res) (h4 : res.bodyRead = Except.ok body) :
    ((makeCallGen bc env request).1.Error = none
        ↔ res.statusCode ∈ request.ExpectedHttpStatusCodes)
    ∧ (∀ E', request.ExpectedHttpStatusCodes.Perm E' →
        ((makeCallGen bc env { request with ExpectedHttpStatusCodes := E' }).1.Error = none
          ↔ (makeCallGen bc env request).1.Error = none))
    ∧ ((makeCallGen bc env request).1.Error = none →
        (makeCallGen bc env request).1.Body = body) := by
  refine ⟨makeCallGen_error_none_iff bc env request res body h1 h2 h3 h4, ?_, ?_⟩
  · intro E' hperm
    rw [makeCallGen_error_none_iff bc env _ res body h1 h2 h3 h4,
        makeCallGen_error_none_iff bc env request res body h1 h2 h3 h4]
    exact hperm.mem_iff.symm
  · intro _
    rw [makeCallGen_reach bc env request res body h1 h2 h3 h4]

/-- Witness for C1: with a 404 response and expected set with 200 and 201,
the classifier reports failure. -/
theorem classifier_success_iff_member_witness :
    (makeCallGen isBodyCarryingCore sampleEnv sampleRequest).1.Error = none
      ↔ (404 : Int) ∈ ([200, 201] : List Int) :=
  (classifier_success_iff_member isBodyCarryingCore sampleEnv sampleRequest sampleWire
      "oops" rfl rfl rfl rfl).1

/-- Claim C2: on an unexpected status code, the resulting error's Message
is the message field of the body when the body decodes as an ApiError
payload with a message field, and the raw body text when the decode
fails; and regardless of anything the decoded payload contained,
CodeExpected is the full expected set, CodeReceived the actual status
code, and ParsedUrl the resolved URL. -/
theorem unexpected_status_error_fields (bc : String → Bool) (env : NetEnv)
    (request : ApiRequest) (res : HttpWireResponse) (body : String)
    (h1 : env.urlParseErr = none) (h2 : env.newRequestErr = none)
    (h3 : env.transport = Except.ok res) (h4 : res.bodyRead = Except.ok body)
    (hS : res.statusCode ∉ request.ExpectedHttpStatusCodes) :
    ∃ err : ApiError,
      (makeCallGen bc env request).1.Error = some err
      ∧ (env.errBodyParse = none → err.Message = body)
      ∧ (∀ p m, env.errBodyParse = some p → p.message = some m → err.Message = m)
      ∧ err.CodeExpected = request.ExpectedHttpStatusCodes
      ∧ err.CodeReceived = res.statusCode
      ∧ err.ParsedUrl = request.Client.HttpBaseUrl ++ request.Path ++ request.Query := by
  have hE : isExpectedStatusCode res.statusCode request.ExpectedHttpStatusCodes = false :=
    Bool.eq_false_iff.mpr fun hc => hS ((isExpectedStatusCode_iff_mem _ _).mp hc)
  rw [makeCallGen_reach bc env request res body h1 h2 h3 h4]
  refine ⟨{ Message := (match env.errBodyParse with
              | none => body
              | some p => p.message.getD "")
          , CodeExpected := request.ExpectedHttpStatusCodes
          , CodeReceived := res.statusCode
          , ParsedUrl := request.Client.HttpBaseUrl ++ request.Path ++ request.Query },
      ?_, ?_, ?_, rfl, rfl, rfl⟩
  · simp [hE]
  · intro hp
    simp [hp]
  · intro p m hp hm
    simp [hp, hm]

/-- Witness for C2: a 404 with non-JSON body "oops" yields an error whose
Message is exactly "oops" and whose contextual fields come from the call. -/
theorem unexpected_status_error_fields_witness :
    ∃ err : ApiError,
      (makeCallGen isBodyCarryingHttp sampleEnv sampleRequest).1.Error = some err
      ∧ (sampleEnv.errBodyParse = none → err.Message = "oops")
      ∧ (∀ p m, sampleEnv.errBodyParse = some p → p.message = some m → err.Message = m)
      ∧ err.CodeExpected = sampleRequest.ExpectedHttpStatusCodes
      ∧ err.CodeReceived = 404
      ∧ err.ParsedUrl = sampleClient.HttpBaseUrl ++ sampleRequest.Path ++ sampleRequest.Query :=
  unexpected_status_error_fields isBodyCarryingHttp sampleEnv sampleRequest sampleWire
    "oops" rfl rfl rfl rfl (by decide)

/-- Claim C9: on an unexpected status code whose body decodes successfully
as an ApiError payload that lacks a message field, the resulting error's
Message is the empty string — the raw-text fallback fires only when the
decode itself fails. -/
theorem parsed_error_without_message_empty (bc : String → Bool) (env : NetEnv)
    (request : ApiRequest) (res : HttpWireResponse) (body : String)
    (h1 : env.urlParseErr = none) (h2 : env.newRequestErr = none)
    (h3 : env.transport = Except.ok res) (h4 : res.bodyRead = Except.ok body)
    (hS : res.statusCode ∉ request.ExpectedHttpStatusCodes)
    (p : ParsedApiErr) (hp : env.errBodyParse = some p) (hm : p.message = none) :
    ∃ err : ApiError,
      (makeCallGen bc env request).1.Error = some err ∧ err.Message = "" := by
  have hE : isExpectedStatusCode res.statusCode request.ExpectedHttpStatusCodes = false :=
    Bool.eq_false_iff.mpr fun hc => hS ((isExpectedStatusCode_iff_mem _ _).mp hc)
  rw [makeCallGen_reach bc env request res body h1 h2 h3 h4]
  refine ⟨{ Message := (match env.errBodyParse with
              | none => body
              | some q => q.message.getD "")
          , CodeExpected := request.ExpectedHttpStatusCodes
          , CodeReceived := res.statusCode
          , ParsedUrl := request.Client.HttpBaseUrl ++ request.Path ++ request.Query },
      ?_, ?_⟩
  · simp [hE]
  · simp [hp, hm]

/-- Witness for C9: a 500 whose body is the empty JSON object yields an
error with empty Message, not the raw body text. -/
theorem parsed_error_without_message_empty_witness :
    ∃ err : ApiError,
      (makeCallGen isBodyCarryingCore sampleEnvParsedNoMsg sampleRequest).1.Error = some err
      ∧ err.Message = "" :=
  parsed_error_without_message_empty isBodyCarryingCore sampleEnvParsedNoMsg sampleRequest
    sampleWireJson "\x7b\x7d" rfl rfl rfl rfl (by decide) sampleParsedNoMsg rfl rfl

/-- Whenever a wire-level request is constructed, the body handed to it is
the descriptor's body for body-carrying methods and empty otherwise. -/
lemma makeCallGen_wireBody (bc : String → Bool) (env : NetEnv) (request : ApiRequest)
    (b : String) (h : (makeCallGen bc env request).2.wireBody = some b) :
    b = (if bc request.HttpMethod then request.Body else "") := by
  obtain ⟨u, n, tr, pb⟩ := env
  cases u with
  | some e => simp [makeCallGen, CallTrace.none] at h
  | none =>
    cases n with
    | some e =>
        simp [makeCallGen] at h
        exact h.symm
    | none =>
      cases tr with
      | error e =>
          simp [makeCallGen] at h
          exact h.symm
      | ok res =>
        obtain ⟨sc, st, br⟩ := res
        cases br with
        | error e =>
            simp [makeCallGen] at h
            exact h.symm
        | ok body =>
            simp [makeCallGen] at h
            exact h.symm

/-- Claim C3: whenever makeCall (http.go) or MakeCall (core.go) hands a
body to the wire request, that body is the descriptor's serialized bytes
exactly for the body-carrying methods — POST, PUT and PATCH in the http.go
variant, POST and PUT only in the core.go variant — and the empty body for
every other method, even though the descriptor still carries bytes; the
trailing conjuncts pin the two method policies down on the named
methods. -/
theorem request_body_only_for_body_methods (env : NetEnv) (request : ApiRequest)
    (b : String) :
    ((makeCall env request).2.wireBody = some b →
        b = (if isBodyCarryingHttp request.HttpMethod then request.Body else ""))
    ∧ ((MakeCall env request).2.wireBody = some b →
        b = (if isBodyCarryingCore request.HttpMethod then request.Body else ""))
    ∧ (isBodyCarryingHttp "POST" = true ∧ isBodyCarryingHttp "PUT" = true
        ∧ isBodyCarryingHttp "PATCH" = true ∧ isBodyCarryingHttp "GET" = false
        ∧ isBodyCarryingHttp "DELETE" = false)
    ∧ (isBodyCarryingCore "POST" = true ∧ isBodyCarryingCore "PUT" = true
        ∧ isBodyCarryingCore "PATCH" = false ∧ isBodyCarryingCore "GET" = false
        ∧ isBodyCarryingCore "DELETE" = false) :=
  ⟨fun h => makeCallGen_wireBody isBodyCarryingHttp env request b h,
   fun h => makeCallGen_wireBody isBodyCarryingCore env request b h,
   by decide, by decide⟩

/-- Witness for C3: a GET descriptor carrying body bytes "reqbody" hands
the empty body to the wire request. -/
theorem request_body_only_for_body_methods_witness :
    ((makeCall sampleEnv sampleRequest).2.wireBody = some "")
    ∧ ("" = if isBodyCarryingHttp sampleRequest.HttpMethod then sampleRequest.Body else "") :=
  ⟨rfl, (request_body_only_for_body_methods sampleEnv sampleRequest "").1 rfl⟩

/-- Claim C4: when URL parsing of BaseUrl ++ Path ++ Query fails,
makeCall/MakeCall returns an envelope whose error has Message exactly
"invalid URL: <url> - <parse error>", ParsedUrl the concatenated URL and
CodeReceived 0, and no wire request is constructed, no header injection
happens, no transport call is made and no body is read. -/
theorem invalid_url_no_network (bc : String → Bool) (env : NetEnv)
    (request : ApiRequest) (perr : String) (h : env.urlParseErr = some perr) :
    (makeCallGen bc env request).1.Error
        = some { Message := "invalid URL: "
                    ++ (request.Client.HttpBaseUrl ++ request.Path ++ request.Query)
                    ++ " - " ++ perr,
                 CodeExpected := [], CodeReceived := 0,
                 ParsedUrl := request.Client.HttpBaseUrl ++ request.Path ++ request.Query }
    ∧ (makeCallGen bc env request).2.wireBody = none
    ∧ (makeCallGen bc env request).2.headersFuncInvoked = false
    ∧ (makeCallGen bc env request).2.transportInvoked = false
    ∧ (makeCallGen bc env request).2.bodyReadAttempted = false := by
  obtain ⟨u, n, tr, pb⟩ := env
  dsimp only at h
  subst h
  exact ⟨rfl, rfl, rfl, rfl, rfl⟩

/-- Environment in which url.Parse fails with error text "parse error". -/
def sampleEnvBadUrl : NetEnv :=
  { urlParseErr := some "parse error", newRequestErr := none,
    transport := Except.error "unused", errBodyParse := none }

/-- Witness for C4: the invalid-URL error for the sample request, with the
concatenated URL in the message and ParsedUrl and a completely silent
trace. -/
theorem invalid_url_no_network_witness :
    (makeCallGen isBodyCarryingHttp sampleEnvBadUrl sampleRequest).1.Error
        = some { Message := "invalid URL: "
                    ++ ("https://api.example.com" ++ "/v1/orders" ++ "?limit=1")
                    ++ " - " ++ "parse error",
                 CodeExpected := [], CodeReceived := 0,
                 ParsedUrl := "https://api.example.com" ++ "/v1/orders" ++ "?limit=1" }
    ∧ (makeCallGen isBodyCarryingHttp sampleEnvBadUrl sampleRequest).2.wireBody = none
    ∧ (makeCallGen isBodyCarryingHttp sampleEnvBadUrl sampleRequest).2.headersFuncInvoked = false
    ∧ (makeCallGen isBodyCarryingHttp sampleEnvBadUrl sampleRequest).2.transportInvoked = false
    ∧ (makeCallGen isBodyCarryingHttp sampleEnvBadUrl sampleRequest).2.bodyReadAttempted = false :=
  invalid_url_no_network isBodyCarryingHttp sampleEnvBadUrl sampleRequest "parse error" rfl

/-- The failure modes of makeCall that occur before a usable response is
in hand: URL parse failure, wire-request construction failure, transport
failure, or body-read failure. -/
def preResponseFailure (env : NetEnv) : Prop :=
  env.urlParseErr ≠ none ∨ env.newRequestErr ≠ none
  ∨ (∃ e, env.transport = Except.error e)
  ∨ (∃ res e, env.transport = Except.ok res ∧ res.bodyRead = Except.error e)

/-- Claim C5: assuming obtained status codes are positive (every real HTTP
status is), an error's CodeReceived is 0 exactly when the call failed in
one of the pre-response stages (URL parse, wire-request construction,
transport, body read); and when the pipeline reached classification with
an actual status code and still failed, CodeReceived is that status
code. -/
theorem code_received_zero_iff_pre_response (bc : String → Bool) (env : NetEnv)
    (request : ApiRequest)
    (hpos : ∀ res, env.transport = Except.ok res → 0 < res.statusCode) :
    (∀ err, (makeCallGen bc env request).1.Error = some err →
        (err.CodeReceived = 0 ↔ preResponseFailure env))
    ∧ (∀ err res body,
        env.urlParseErr = none → env.newRequestErr = none →
        env.transport = Except.ok res → res.bodyRead = Except.ok body →
        (makeCallGen bc env request).1.Error = some err →
        err.CodeReceived = res.statusCode) := by
  constructor
  · intro err herr
    obtain ⟨u, n, tr, pb⟩ := env
    dsimp only at hpos
    cases u with
    | some e =>
        simp [makeCallGen] at herr
        simp [preResponseFailure, ← herr]
    | none =>
      cases n with
      | some e =>
          simp [makeCallGen] at herr
          simp [preResponseFailure, ← herr]
      | none =>
        cases tr with
        | error e =>
            simp [makeCallGen] at herr
            simp [preResponseFailure, ← herr]
        | ok res =>
          obtain ⟨sc, st, br⟩ := res
          cases br with
          | error e =>
              simp [makeCallGen] at herr
              simp [preResponseFailure, ← herr]
          | ok body =>
              have hsc : 0 < sc := hpos ⟨sc, st, Except.ok body⟩ rfl
              by_cases hE : isExpectedStatusCode sc request.ExpectedHttpStatusCodes
              · simp [makeCallGen, hE] at herr
              · simp [makeCallGen, hE] at herr
                simp [preResponseFailure, ← herr]
                omega
  · intro err res body h1 h2 h3 h4 herr
    rw [makeCallGen_reach bc env request res body h1 h2 h3 h4] at herr
    by_cases hE : isExpectedStatusCode res.statusCode request.ExpectedHttpStatusCodes
    · simp [hE] at herr
    · simp only [hE, if_false, Bool.false_eq_true, Option.some.injEq] at herr
      rw [← herr]

/-- Environment in which the transport call itself fails. -/
def sampleEnvTransportErr : NetEnv :=
  { urlParseErr := none, newRequestErr := none,
    transport := Except.error "connection refused", errBodyParse := none }

/-- Witness for C5: a transport failure yields an error with CodeReceived
0, and that is classified as a pre-response failure. -/
theorem code_received_zero_iff_pre_response_witness :
    ((makeCallGen isBodyCarryingHttp sampleEnvTransportErr sampleRequest).1.Error
        = some { Message := "connection refused", CodeExpected := [],
                 CodeReceived := 0, ParsedUrl := "" })
    ∧ (({ Message := "connection refused", CodeExpected := [],
          CodeReceived := 0, ParsedUrl := "" } : ApiError).CodeReceived = 0
        ↔ preResponseFailure sampleEnvTransportErr) :=
  ⟨rfl,
   (code_received_zero_iff_pre_response isBodyCarryingHttp sampleEnvTransportErr
      sampleRequest (fun _ h => nomatch h)).1 _ rfl⟩

/-- Claim C6: the Call entry point with the credentials guard (core.go:132
and part_003:148) returns the configuration error "credentials not set" as
an ordinary value — the embedding is a total function, so no panic or
fatal exit is possible — when the client's credential bundle is nil,
before any serialization or network activity; the http.go call variant has
no such guard and always proceeds to serialize the request. -/
theorem credentials_guard :
    (∀ (env : CallEnv) (client : Client) (path query m : String) (E : List Int),
        client.Credentials = none →
          (Call env client path query m E).1 = some (GoError.simple "credentials not set")
          ∧ (Call env client path query m E).2 = FullTrace.none)
    ∧ (∀ (env : CallEnv) (client : Client) (path query m : String) (E : List Int),
        (call env client path query m E).2.marshalAttempted = true) := by
  constructor
  · intro env client path query m E h
    obtain ⟨burl, creds⟩ := client
    dsimp only at h
    subst h
    exact ⟨rfl, rfl⟩
  · intro env client path query m E
    obtain ⟨mar, net, unm⟩ := env
    unfold call
    cases mar with
    | error e => rfl
    | ok body =>
        dsimp only
        split
        · rfl
        · split <;> rfl

/-- Client whose credential bundle is nil. -/
def sampleClientNoCreds : Client :=
  { HttpBaseUrl := "https://api.example.com", Credentials := none }

/-- Call-level environment in which marshalling succeeds. -/
def sampleCallEnv : CallEnv :=
  { marshal := Except.ok "reqbody", net := sampleEnv, unmarshalResp := none }

/-- Witness for C6: with nil credentials, Call returns the configuration
error and performs nothing. -/
theorem credentials_guard_witness :
    sampleClientNoCreds.Credentials = none
    ∧ ((Call sampleCallEnv sampleClientNoCreds "/v1/orders" "" "GET" [200]).1
          = some (GoError.simple "credentials not set")
      ∧ (Call sampleCallEnv sampleClientNoCreds "/v1/orders" "" "GET" [200]).2
          = FullTrace.none) :=
  ⟨rfl, credentials_guard.1 sampleCallEnv sampleClientNoCreds "/v1/orders" "" "GET" [200] rfl⟩

end CoreGo
